import Mathlib

/-!
Verification development for the domain-chatbot backend.

We shallowly embed the chat-session store (`src/services/database.py`,
class `InMemoryDatabase`) and the conversation orchestration endpoint
(`src/api/chats.py`, functions `chat` and `delete_chat`).

Modelling decisions:
* The Python `dict` of sessions is an association list preserving
  insertion order (Python dicts are insertion-ordered); keys are unique
  in every reachable state because insertion happens only through
  `create_chat_session`.
* `uuid.uuid4().hex` is modelled by `uuid4Hex`, which renders a seed as
  32 lowercase hexadecimal characters; the randomness of the draw
  becomes an explicit seed input to the request.
* The QA chain call (`qa_chain.invoke({"query": request.message})`,
  lines 89-97 of chats.py, including the NumPy availability pre-check)
  is an external collaborator, modelled as a function from the query
  string to `Except String String`: `.error e` is a raised exception
  with text `e` (Python `str(model_error)`), `.ok t` the extracted
  answer text.
* Timestamps (`datetime.utcnow().isoformat() + "Z"`) are opaque strings
  supplied as request inputs; the session listing compares them with
  the lexicographic string order, exactly as Python `sort` does on
  `str` keys.
-/

/-- Equality on `Except` results is decidable when it is on both
components; used to evaluate endpoint outcomes on concrete inputs. -/
instance {ε α : Type} [DecidableEq ε] [DecidableEq α] : DecidableEq (Except ε α) := fun a b =>
  match a, b with
  | Except.ok x, Except.ok y =>
    if h : x = y then isTrue (by rw [h]) else isFalse (by intro hc; cases hc; exact h rfl)
  | Except.error x, Except.error y =>
    if h : x = y then isTrue (by rw [h]) else isFalse (by intro hc; cases hc; exact h rfl)
  | Except.ok _, Except.error _ => isFalse (by intro hc; cases hc)
  | Except.error _, Except.ok _ => isFalse (by intro hc; cases hc)

/-- Message role, the `Literal["user", "assistant"]` of `models.py`. -/
inductive Role where
  | user
  | assistant
deriving DecidableEq, Repr

/-- `ChatMessage` of `models.py`: id, role, content, ISO timestamp. -/
structure ChatMessage where
  id : String
  role : Role
  content : String
  timestamp : String
deriving DecidableEq, Repr

/-- `DocumentInfo` of `models.py`: a registry entry. -/
structure DocumentInfo where
  id : String
  name : String
  type : String
deriving DecidableEq, Repr

/-- `SourceDocument` of `models.py`: a source attribution in a response. -/
structure SourceDocument where
  docId : String
  docName : String
  relevantSection : Option String
deriving DecidableEq, Repr

/-- `ChatRequest` of `models.py`. `none` models an absent optional field. -/
structure ChatRequest where
  chatId : Option String
  message : String
  userId : Option String
deriving DecidableEq, Repr

/-- `ChatResponse` of `models.py`. -/
structure ChatResponse where
  response : String
  messageId : String
  chatId : String
  userId : String
  timestamp : String
  sources : Option (List SourceDocument)
deriving DecidableEq, Repr

/-- One row of `get_chat_sessions_with_metadata` (the `session_info`
dict of database.py lines 109-114, also `ChatSession` of models.py). -/
structure SessionInfo where
  chatId : String
  messageCount : Nat
  lastActivity : String
  firstMessage : Option String
deriving DecidableEq, Repr

/-- The state of `InMemoryDatabase` (database.py lines 20-23):
the insertion-ordered session map and the document registry (its
values in insertion order; only `.values()` is ever consumed). -/
structure InMemoryDatabase where
  chat_sessions : List (String × List ChatMessage)
  documents : List DocumentInfo
deriving DecidableEq, Repr

/-- `chat_session_exists` (database.py lines 84-86): dict membership. -/
def InMemoryDatabase.chat_session_exists (db : InMemoryDatabase) (chat_id : String) : Bool :=
  db.chat_sessions.any fun p => p.1 == chat_id

/-- `create_chat_session` (database.py lines 53-59): if the id is absent,
bind it to an empty list (a new dict key goes to the end) and return
true; otherwise leave the store alone and return false. -/
def InMemoryDatabase.create_chat_session (db : InMemoryDatabase) (chat_id : String) :
    InMemoryDatabase × Bool :=
  if db.chat_session_exists chat_id then (db, false)
  else ({ db with chat_sessions := db.chat_sessions ++ [(chat_id, [])] }, true)

/-- `self.chat_sessions[chat_id].append(message)`: append to the list
bound to the key (keys are unique in reachable states, so mapping over
all equal keys is the dict update). -/
def appendToSession (sessions : List (String × List ChatMessage)) (chat_id : String)
    (message : ChatMessage) : List (String × List ChatMessage) :=
  sessions.map fun p => if p.1 == chat_id then (p.1, p.2 ++ [message]) else p

/-- `add_message` (database.py lines 61-68): create the session if
absent, then append; always returns true. -/
def InMemoryDatabase.add_message (db : InMemoryDatabase) (chat_id : String)
    (message : ChatMessage) : InMemoryDatabase × Bool :=
  let db1 := if db.chat_session_exists chat_id then db else (db.create_chat_session chat_id).1
  ({ db1 with chat_sessions := appendToSession db1.chat_sessions chat_id message }, true)

/-- `get_chat_history` (database.py lines 70-73): `dict.get(id, [])`. -/
def InMemoryDatabase.get_chat_history (db : InMemoryDatabase) (chat_id : String) :
    List ChatMessage :=
  match db.chat_sessions.find? (fun p => p.1 == chat_id) with
  | some p => p.2
  | none => []

/-- `delete_chat_session` (database.py lines 75-82): `del` the key if
present and return true, else return false. -/
def InMemoryDatabase.delete_chat_session (db : InMemoryDatabase) (chat_id : String) :
    InMemoryDatabase × Bool :=
  if db.chat_session_exists chat_id then
    ({ db with chat_sessions := db.chat_sessions.filter fun p => p.1 != chat_id }, true)
  else (db, false)

/-- `get_documents` (database.py lines 48-51): returns the whole
registry, ignoring `chat_id`. -/
def InMemoryDatabase.get_documents (db : InMemoryDatabase) (_chat_id : String) :
    List DocumentInfo :=
  db.documents

/-- The preview computed in database.py lines 100-104: the first
user-role message, its content truncated to 100 characters with an
ellipsis when longer than 100; `none` when no user message exists. -/
def firstUserPreview (messages : List ChatMessage) : Option String :=
  (messages.find? fun m => m.role == Role.user).map fun m =>
    if m.content.length > 100 then m.content.take 100 ++ "..." else m.content

/-- One `session_info` row (database.py lines 106-114). The `[]` branch
of `lastActivity` is unreachable: callers filter out empty sessions
first (the Python `if messages else` fallback is equally dead). -/
def sessionEntry (chat_id : String) (messages : List ChatMessage) : SessionInfo :=
  { chatId := chat_id
    messageCount := messages.length
    lastActivity := (messages.getLast?.map fun m => m.timestamp).getD ""
    firstMessage := firstUserPreview messages }

/-- Stable descending insertion by the `lastActivity` key: the later
element goes after every earlier element of equal key, which is the
behaviour of Python `list.sort(key=..., reverse=True)` (a stable sort). -/
def insertByLastActivity (x : SessionInfo) : List SessionInfo → List SessionInfo
  | [] => [x]
  | y :: ys =>
    if y.lastActivity < x.lastActivity then x :: y :: ys
    else y :: insertByLastActivity x ys

/-- Stable sort of the session rows, most recent `lastActivity` first
(`sessions.sort(key=lambda x: x["lastActivity"], reverse=True)`,
database.py line 118). -/
def sortByLastActivity : List SessionInfo → List SessionInfo
  | [] => []
  | x :: xs => insertByLastActivity x (sortByLastActivity xs)

/-- `get_chat_sessions_with_metadata` (database.py lines 92-119): skip
empty sessions, build a metadata row for each remaining one, sort by
last activity descending. -/
def InMemoryDatabase.get_chat_sessions_with_metadata (db : InMemoryDatabase) :
    List SessionInfo :=
  sortByLastActivity
    ((db.chat_sessions.filter fun p => !p.2.isEmpty).map fun p => sessionEntry p.1 p.2)

/-- One lowercase hexadecimal digit: the digit of weight `n`. -/
def hexChar (n : Nat) : Char :=
  "0123456789abcdef".data.getD n '0'

/-- `width` hexadecimal digits of `seed`, most significant first. -/
def hexDigitsOf : Nat → Nat → List Char
  | 0, _ => []
  | w + 1, seed => hexDigitsOf w (seed / 16) ++ [hexChar (seed % 16)]

/-- `uuid.uuid4().hex`: 32 lowercase hex characters. The random draw of
`uuid4` is modelled by the explicit `seed`. -/
def uuid4Hex (seed : Nat) : String :=
  ⟨hexDigitsOf 32 seed⟩

/-- An auto-generated identifier `f"{tag}{uuid.uuid4().hex[:8]}"`
(chats.py lines 52, 60 and 111-112). -/
def freshId (tag : String) (seed : Nat) : String :=
  tag ++ (uuid4Hex seed).take 8

/-- Python `not s.strip()`: true exactly when every character of `s`
is whitespace (in particular for the empty string), i.e. when the
default strip leaves nothing behind. -/
def isBlank (s : String) : Bool :=
  s.data.all Char.isWhitespace

/-- The id-resolution rule of chats.py lines 50-53 and 58-61: keep the
caller-supplied id unless it is absent (`None`), falsy/blank
(`not chat_id or not chat_id.strip()`), or the Swagger placeholder
`"string"`; otherwise draw a fresh one. -/
def resolveId (supplied : Option String) (tag : String) (seed : Nat) : String :=
  match supplied with
  | none => freshId tag seed
  | some s => if isBlank s ∨ s = "string" then freshId tag seed else s

/-- The bounded history `conversation_history[-10:]` converted to
`{"role": ..., "content": ...}` dicts (chats.py lines 73-76). Python
`l[-10:]` is the suffix of the last `min 10 (length l)` elements. -/
def historyForModel (conversation_history : List ChatMessage) : List (Role × String) :=
  (conversation_history.drop (conversation_history.length - 10)).map fun m =>
    (m.role, m.content)

/-- Does `pat` occur as a contiguous run at the head of `s`? -/
def startsWithChars : List Char → List Char → Bool
  | [], _ => true
  | _ :: _, [] => false
  | a :: as, b :: bs => a == b && startsWithChars as bs

/-- Does `pat` occur as a contiguous run anywhere in `s`? -/
def hasSubChars (pat : List Char) : List Char → Bool
  | [] => startsWithChars pat []
  | b :: bs => startsWithChars pat (b :: bs) || hasSubChars pat bs

/-- Python `pat in s` on strings: substring containment. -/
def hasSubstr (s pat : String) : Bool :=
  hasSubChars pat.data s.data

/-- Canned reply for a missing numeric library (chats.py line 104). -/
def numpyUnavailableReply : String :=
  "I\x27m experiencing a technical issue with the numerical computing library. Please ensure NumPy is properly installed."

/-- Canned reply for accelerator trouble (chats.py line 106). -/
def gpuIssueReply : String :=
  "I\x27m having GPU-related issues. The system will try to use CPU instead."

/-- Generic canned apology (chats.py line 108). -/
def genericApologyReply : String :=
  "I apologize, but I\x27m having trouble processing your request right now. Please try again later."

/-- The `except` branch of chats.py lines 99-108: classify the raised
error by substring inspection of its text and pick a canned reply. -/
def classifyModelError (err : String) : String :=
  if hasSubstr err "Numpy is not available" then numpyUnavailableReply
  else if hasSubstr err "CUDA" || hasSubstr err "GPU" then gpuIssueReply
  else genericApologyReply

/-- Lines 79-108 of chats.py: invoke the QA chain on the query alone;
an extracted answer on success, a canned apology chosen by
`classifyModelError` when the collaborator raises. -/
def generateResponse (qaInvoke : String → Except String String) (message : String) : String :=
  match qaInvoke message with
  | Except.ok result => result
  | Except.error e => classifyModelError e

/-- The request errors the endpoints surface as `HTTPException`s. -/
inductive ChatError where
  | emptyMessage
  | emptyChatId
  | notFound (chatId : String)
deriving DecidableEq, Repr

/-- The HTTP status code attached to each error (chats.py lines 47,
252, 265-268). -/
def ChatError.statusCode : ChatError → Nat
  | .emptyMessage => 400
  | .emptyChatId => 400
  | .notFound _ => 404

/-- The random draws and the clock reading consumed by one `chat`
request: the four `uuid4` calls (session id, user id, user message id,
assistant message id — the first two used only when the caller left the
field unset) and the `datetime.utcnow()` timestamp. -/
structure RequestNonces where
  chatSeed : Nat
  userSeed : Nat
  userMsgSeed : Nat
  assistantMsgSeed : Nat
  timestamp : String
deriving DecidableEq, Repr

/-- `POST /chat` (chats.py lines 32-160) as a state transformer on the
database. Returns the response or the surfaced `HTTPException`,
together with the store after the request. -/
def chat (db : InMemoryDatabase) (req : ChatRequest) (rnd : RequestNonces)
    (qaInvoke : String → Except String String) :
    Except ChatError ChatResponse × InMemoryDatabase :=
  if isBlank req.message then (Except.error ChatError.emptyMessage, db)
  else
    let chat_id := resolveId req.chatId "chat-" rnd.chatSeed
    let user_id := resolveId req.userId "user-" rnd.userSeed
    let db1 := if db.chat_session_exists chat_id then db else (db.create_chat_session chat_id).1
    let conversation_history := db1.get_chat_history chat_id
    let _history_for_model := historyForModel conversation_history
    let ai_response := generateResponse qaInvoke req.message
    let user_message_id := freshId "msg-" rnd.userMsgSeed
    let assistant_message_id := freshId "msg-" rnd.assistantMsgSeed
    let current_timestamp := rnd.timestamp
    let db2 := (db1.add_message chat_id
      { id := user_message_id, role := Role.user, content := req.message
        timestamp := current_timestamp }).1
    let db3 := (db2.add_message chat_id
      { id := assistant_message_id, role := Role.assistant, content := ai_response
        timestamp := current_timestamp }).1
    let documents := db3.get_documents chat_id
    let sources :=
      if documents.isEmpty then none
      else some ((documents.take 3).map fun doc =>
        { docId := doc.id, docName := doc.name, relevantSection := none })
    (Except.ok
      { response := ai_response, messageId := assistant_message_id, chatId := chat_id
        userId := user_id, timestamp := current_timestamp, sources := sources }, db3)

/-- The success payload of `DELETE /chats/{chatId}` (models.py
`DeleteChatResponse`). -/
structure DeleteChatResponse where
  success : Bool
  message : String
deriving DecidableEq, Repr

/-- `DELETE /chats/{chatId}` (chats.py lines 233-275): 400 on a blank
id, then delete; a missing session becomes a 404, not an exception. -/
def delete_chat (db : InMemoryDatabase) (chatId : String) :
    Except ChatError DeleteChatResponse × InMemoryDatabase :=
  if isBlank chatId then (Except.error ChatError.emptyChatId, db)
  else
    let r := db.delete_chat_session chatId
    if r.2 then
      (Except.ok { success := true
                   message := "Chat session " ++ chatId ++ " has been successfully deleted" },
        r.1)
    else (Except.error (ChatError.notFound chatId), r.1)

/-- `GET /chats` (chats.py lines 199-230): the metadata listing, passed
through unchanged as `ChatSession` rows. -/
def list_chats (db : InMemoryDatabase) : List SessionInfo :=
  db.get_chat_sessions_with_metadata

/-! ### Store lemmas -/

theorem chat_session_exists_iff (db : InMemoryDatabase) (cid : String) :
    db.chat_session_exists cid = true ↔ ∃ p ∈ db.chat_sessions, p.1 = cid := by
  simp [InMemoryDatabase.chat_session_exists, List.any_eq_true]

theorem find?_eq_none_of_not_exists (db : InMemoryDatabase) (cid : String)
    (h : db.chat_session_exists cid = false) :
    db.chat_sessions.find? (fun p => p.1 == cid) = none := by
  rw [List.find?_eq_none]
  intro p hp
  intro hpc
  have : db.chat_session_exists cid = true := by
    unfold InMemoryDatabase.chat_session_exists
    rw [List.any_eq_true]
    exact ⟨p, hp, hpc⟩
  rw [h] at this
  cases this

theorem history_eq_nil_of_not_exists (db : InMemoryDatabase) (cid : String)
    (h : db.chat_session_exists cid = false) :
    db.get_chat_history cid = [] := by
  rw [InMemoryDatabase.get_chat_history, find?_eq_none_of_not_exists db cid h]

theorem create_eq_of_exists (db : InMemoryDatabase) (cid : String)
    (h : db.chat_session_exists cid = true) :
    db.create_chat_session cid = (db, false) := by
  rw [InMemoryDatabase.create_chat_session, if_pos h]

theorem create_snd_of_not_exists (db : InMemoryDatabase) (cid : String)
    (h : db.chat_session_exists cid = false) :
    (db.create_chat_session cid).2 = true := by
  rw [InMemoryDatabase.create_chat_session, if_neg (by simp [h])]

theorem create_sessions_of_not_exists (db : InMemoryDatabase) (cid : String)
    (h : db.chat_session_exists cid = false) :
    (db.create_chat_session cid).1.chat_sessions = db.chat_sessions ++ [(cid, [])] := by
  rw [InMemoryDatabase.create_chat_session, if_neg (by simp [h])]

theorem create_history_self (db : InMemoryDatabase) (cid : String)
    (h : db.chat_session_exists cid = false) :
    (db.create_chat_session cid).1.get_chat_history cid = [] := by
  rw [InMemoryDatabase.get_chat_history, create_sessions_of_not_exists db cid h,
    List.find?_append, find?_eq_none_of_not_exists db cid h]
  simp [List.find?]

theorem create_exists_self (db : InMemoryDatabase) (cid : String) :
    (db.create_chat_session cid).1.chat_session_exists cid = true := by
  by_cases h : db.chat_session_exists cid = true
  · rw [create_eq_of_exists db cid h]; exact h
  · have h0 : db.chat_session_exists cid = false := by
      cases hb : db.chat_session_exists cid
      · rfl
      · exact absurd hb h
    rw [InMemoryDatabase.chat_session_exists, create_sessions_of_not_exists db cid h0]
    simp

theorem create_documents (db : InMemoryDatabase) (cid : String) :
    (db.create_chat_session cid).1.documents = db.documents := by
  rw [InMemoryDatabase.create_chat_session]
  split <;> rfl

theorem fst_appendToSession (cid : String)
    (m : ChatMessage) (p : String × List ChatMessage) :
    ((fun p => if p.1 == cid then (p.1, p.2 ++ [m]) else p) p).1 = p.1 := by
  by_cases h : p.1 == cid
  · simp [h]
  · simp [h]

theorem find?_appendToSession_self (sessions : List (String × List ChatMessage))
    (cid : String) (m : ChatMessage) :
    (appendToSession sessions cid m).find? (fun p => p.1 == cid) =
      (sessions.find? (fun p => p.1 == cid)).map fun p => (p.1, p.2 ++ [m]) := by
  unfold appendToSession
  rw [List.find?_map]
  have hpred : ((fun p : String × List ChatMessage => p.1 == cid) ∘
      fun p => if p.1 == cid then (p.1, p.2 ++ [m]) else p) =
      fun p : String × List ChatMessage => p.1 == cid := by
    funext p
    simp only [Function.comp]
    rw [fst_appendToSession cid m p]
  rw [hpred]
  cases hf : sessions.find? (fun p => p.1 == cid) with
  | none => rfl
  | some p =>
    have hp : (p.1 == cid) = true :=
      @List.find?_some _ (fun q : String × List ChatMessage => q.1 == cid) p sessions hf
    simp [Option.map, hp]

theorem add_message_history_self (db : InMemoryDatabase) (cid : String) (m : ChatMessage) :
    (db.add_message cid m).1.get_chat_history cid = db.get_chat_history cid ++ [m] := by
  unfold InMemoryDatabase.add_message
  by_cases h : db.chat_session_exists cid = true
  · simp only [h, if_true]
    rw [InMemoryDatabase.get_chat_history, InMemoryDatabase.get_chat_history]
    rw [show ({ db with chat_sessions := appendToSession db.chat_sessions cid m } :
      InMemoryDatabase).chat_sessions = appendToSession db.chat_sessions cid m from rfl]
    rw [find?_appendToSession_self]
    have hsome : (db.chat_sessions.find? fun p => p.1 == cid).isSome := by
      rw [List.find?_isSome]
      rcases List.any_eq_true.mp h with ⟨p, hp, hpc⟩
      exact ⟨p, hp, hpc⟩
    cases hf : db.chat_sessions.find? (fun p => p.1 == cid) with
    | none => rw [hf] at hsome; cases hsome
    | some p => simp [Option.map]
  · have h0 : db.chat_session_exists cid = false := by
      cases hb : db.chat_session_exists cid
      · rfl
      · exact absurd hb h
    simp only [h0, Bool.false_eq_true, if_false]
    rw [history_eq_nil_of_not_exists db cid h0]
    rw [InMemoryDatabase.get_chat_history]
    rw [show ({ (db.create_chat_session cid).1 with
      chat_sessions := appendToSession (db.create_chat_session cid).1.chat_sessions cid m } :
      InMemoryDatabase).chat_sessions =
      appendToSession (db.create_chat_session cid).1.chat_sessions cid m from rfl]
    rw [find?_appendToSession_self, create_sessions_of_not_exists db cid h0,
      List.find?_append, find?_eq_none_of_not_exists db cid h0]
    simp [List.find?]

theorem add_message_documents (db : InMemoryDatabase) (cid : String) (m : ChatMessage) :
    (db.add_message cid m).1.documents = db.documents := by
  unfold InMemoryDatabase.add_message
  by_cases h : db.chat_session_exists cid = true
  · simp [h]
  · have h0 : db.chat_session_exists cid = false := by
      cases hb : db.chat_session_exists cid
      · rfl
      · exact absurd hb h
    simp [h0, create_documents]

theorem delete_eq_of_not_exists (db : InMemoryDatabase) (cid : String)
    (h : db.chat_session_exists cid = false) :
    db.delete_chat_session cid = (db, false) := by
  rw [InMemoryDatabase.delete_chat_session, if_neg (by simp [h])]

theorem delete_snd_of_exists (db : InMemoryDatabase) (cid : String)
    (h : db.chat_session_exists cid = true) :
    (db.delete_chat_session cid).2 = true := by
  rw [InMemoryDatabase.delete_chat_session, if_pos h]

theorem delete_sessions_of_exists (db : InMemoryDatabase) (cid : String)
    (h : db.chat_session_exists cid = true) :
    (db.delete_chat_session cid).1.chat_sessions =
      db.chat_sessions.filter fun p => p.1 != cid := by
  rw [InMemoryDatabase.delete_chat_session, if_pos h]

theorem delete_not_exists_after (db : InMemoryDatabase) (cid : String)
    (h : db.chat_session_exists cid = true) :
    (db.delete_chat_session cid).1.chat_session_exists cid = false := by
  rw [InMemoryDatabase.chat_session_exists, delete_sessions_of_exists db cid h]
  rw [Bool.eq_false_iff]
  intro hany
  rcases List.any_eq_true.mp hany with ⟨p, hp, hpc⟩
  have hne : (p.1 != cid) = true := (List.mem_filter.mp hp).2
  rw [bne_iff_ne] at hne
  exact hne (by simpa using hpc)

theorem delete_history_after (db : InMemoryDatabase) (cid : String)
    (h : db.chat_session_exists cid = true) :
    (db.delete_chat_session cid).1.get_chat_history cid = [] := by
  rw [InMemoryDatabase.get_chat_history, delete_sessions_of_exists db cid h]
  have hnone : (db.chat_sessions.filter fun p => p.1 != cid).find?
      (fun p => p.1 == cid) = none := by
    rw [List.find?_eq_none]
    intro p hp hpc
    have hne : (p.1 != cid) = true := (List.mem_filter.mp hp).2
    rw [bne_iff_ne] at hne
    exact hne (by simpa using hpc)
  rw [hnone]

/-! ### Sorting lemmas for the session listing -/

theorem mem_insertByLastActivity (x a : SessionInfo) (l : List SessionInfo) :
    a ∈ insertByLastActivity x l ↔ a = x ∨ a ∈ l := by
  induction l with
  | nil => simp [insertByLastActivity]
  | cons y ys ih =>
    rw [insertByLastActivity]
    by_cases hc : y.lastActivity < x.lastActivity
    · simp only [if_pos hc, List.mem_cons]
    · simp only [if_neg hc, List.mem_cons, ih]
      tauto

theorem mem_sortByLastActivity (a : SessionInfo) (l : List SessionInfo) :
    a ∈ sortByLastActivity l ↔ a ∈ l := by
  induction l with
  | nil => simp [sortByLastActivity]
  | cons y ys ih =>
    rw [sortByLastActivity, mem_insertByLastActivity]
    simp [ih]

theorem pairwise_insertByLastActivity (x : SessionInfo) (l : List SessionInfo)
    (h : l.Pairwise fun a b => b.lastActivity ≤ a.lastActivity) :
    (insertByLastActivity x l).Pairwise fun a b => b.lastActivity ≤ a.lastActivity := by
  induction l with
  | nil => simp [insertByLastActivity]
  | cons y ys ih =>
    rw [List.pairwise_cons] at h
    rw [insertByLastActivity]
    by_cases hc : y.lastActivity < x.lastActivity
    · rw [if_pos hc]
      rw [List.pairwise_cons]
      constructor
      · intro z hz
        rcases List.mem_cons.mp hz with hz | hz
        · rw [hz]; exact le_of_lt hc
        · exact le_trans (h.1 z hz) (le_of_lt hc)
      · rw [List.pairwise_cons]
        exact h
    · rw [if_neg hc]
      rw [List.pairwise_cons]
      constructor
      · intro z hz
        rcases (mem_insertByLastActivity x z ys).mp hz with hz | hz
        · rw [hz]; exact le_of_not_lt hc
        · exact h.1 z hz
      · exact ih h.2

theorem pairwise_sortByLastActivity (l : List SessionInfo) :
    (sortByLastActivity l).Pairwise fun a b => b.lastActivity ≤ a.lastActivity := by
  induction l with
  | nil => simp [sortByLastActivity]
  | cons y ys ih =>
    rw [sortByLastActivity]
    exact pairwise_insertByLastActivity y (sortByLastActivity ys) ih

theorem mem_metadata_iff (db : InMemoryDatabase) (s : SessionInfo) :
    s ∈ db.get_chat_sessions_with_metadata ↔
      ∃ p ∈ db.chat_sessions, p.2 ≠ [] ∧ s = sessionEntry p.1 p.2 := by
  rw [InMemoryDatabase.get_chat_sessions_with_metadata, mem_sortByLastActivity]
  rw [List.mem_map]
  constructor
  · rintro ⟨p, hp, hs⟩
    rcases List.mem_filter.mp hp with ⟨hmem, hne⟩
    refine ⟨p, hmem, ?_, hs.symm⟩
    simpa [List.isEmpty_iff] using hne
  · rintro ⟨p, hmem, hne, hs⟩
    refine ⟨p, List.mem_filter.mpr ⟨hmem, ?_⟩, hs.symm⟩
    simpa [List.isEmpty_iff] using hne

/-! ### The success path of `chat`, factored for the proofs -/

/-- The store left behind by a successful `chat` request: the session
is ensured (chats.py lines 63-66), then the user message and the
assistant message are appended (lines 110-131). -/
def chatDbAfter (db : InMemoryDatabase) (req : ChatRequest) (rnd : RequestNonces)
    (qaInvoke : String → Except String String) : InMemoryDatabase :=
  let chat_id := resolveId req.chatId "chat-" rnd.chatSeed
  let db1 := if db.chat_session_exists chat_id then db else (db.create_chat_session chat_id).1
  let db2 := (db1.add_message chat_id
    { id := freshId "msg-" rnd.userMsgSeed, role := Role.user, content := req.message
      timestamp := rnd.timestamp }).1
  (db2.add_message chat_id
    { id := freshId "msg-" rnd.assistantMsgSeed, role := Role.assistant
      content := generateResponse qaInvoke req.message, timestamp := rnd.timestamp }).1

/-- The response assembled by a successful `chat` request (chats.py
lines 133-153), expressed over the request inputs. -/
def chatResponse (db : InMemoryDatabase) (req : ChatRequest) (rnd : RequestNonces)
    (qaInvoke : String → Except String String) : ChatResponse :=
  { response := generateResponse qaInvoke req.message
    messageId := freshId "msg-" rnd.assistantMsgSeed
    chatId := resolveId req.chatId "chat-" rnd.chatSeed
    userId := resolveId req.userId "user-" rnd.userSeed
    timestamp := rnd.timestamp
    sources := if db.documents.isEmpty then none
      else some ((db.documents.take 3).map fun doc =>
        { docId := doc.id, docName := doc.name, relevantSection := none }) }

theorem chat_eq (db : InMemoryDatabase) (req : ChatRequest) (rnd : RequestNonces)
    (qaInvoke : String → Except String String) (h : isBlank req.message = false) :
    chat db req rnd qaInvoke =
      (Except.ok (chatResponse db req rnd qaInvoke), chatDbAfter db req rnd qaInvoke) := by
  rw [chat, chatResponse, chatDbAfter]
  simp only [h, Bool.false_eq_true, if_false]
  simp only [InMemoryDatabase.get_documents, add_message_documents]
  by_cases hx : db.chat_session_exists (resolveId req.chatId "chat-" rnd.chatSeed) = true
  · rw [if_pos hx]
  · rw [if_neg hx, create_documents]

/-- After a successful request, the resolved session holds its previous
history followed by the user message then the assistant message. -/
theorem chatDbAfter_history (db : InMemoryDatabase) (req : ChatRequest)
    (rnd : RequestNonces) (qaInvoke : String → Except String String) :
    (chatDbAfter db req rnd qaInvoke).get_chat_history
        (resolveId req.chatId "chat-" rnd.chatSeed) =
      db.get_chat_history (resolveId req.chatId "chat-" rnd.chatSeed) ++
        [{ id := freshId "msg-" rnd.userMsgSeed, role := Role.user, content := req.message
           timestamp := rnd.timestamp },
         { id := freshId "msg-" rnd.assistantMsgSeed, role := Role.assistant
           content := generateResponse qaInvoke req.message, timestamp := rnd.timestamp }] := by
  have step : ∀ dbx : InMemoryDatabase, ∀ cid : String, ∀ m1 m2 : ChatMessage,
      (((dbx.add_message cid m1).1.add_message cid m2).1).get_chat_history cid =
        dbx.get_chat_history cid ++ [m1, m2] := by
    intro dbx cid m1 m2
    rw [add_message_history_self, add_message_history_self, List.append_assoc]
    rfl
  simp only [chatDbAfter]
  rw [step]
  by_cases hx : db.chat_session_exists (resolveId req.chatId "chat-" rnd.chatSeed) = true
  · rw [if_pos hx]
  · rw [if_neg hx]
    have h0 : db.chat_session_exists (resolveId req.chatId "chat-" rnd.chatSeed) = false := by
      cases hb : db.chat_session_exists (resolveId req.chatId "chat-" rnd.chatSeed)
      · rfl
      · exact absurd hb hx
    rw [create_history_self db _ h0, history_eq_nil_of_not_exists db _ h0]

/-! ### The generated-id pattern -/

/-- The character class `[0-9a-f]` of the spec pattern. -/
def isLowerHexDigit (c : Char) : Bool :=
  "0123456789abcdef".data.contains c

/-- The spec pattern `chat-[0-9a-f]{8}` (testable property 7), read on
the character list: the literal tag followed by exactly eight lowercase
hexadecimal characters. -/
def matchesIdPat (tag s : String) : Bool :=
  (s.data.take tag.data.length == tag.data) &&
  ((s.data.drop tag.data.length).length == 8) &&
  (s.data.drop tag.data.length).all isLowerHexDigit

theorem hexChar_isLowerHexDigit (n : Nat) (h : n < 16) :
    isLowerHexDigit (hexChar n) = true := by
  revert n
  decide

theorem length_hexDigitsOf (w seed : Nat) : (hexDigitsOf w seed).length = w := by
  induction w generalizing seed with
  | zero => rfl
  | succ k ih =>
    rw [hexDigitsOf, List.length_append, ih]
    simp

theorem all_hexDigitsOf (w seed : Nat) :
    (hexDigitsOf w seed).all isLowerHexDigit = true := by
  induction w generalizing seed with
  | zero => rfl
  | succ k ih =>
    rw [hexDigitsOf, List.all_append, ih]
    simp only [Bool.true_and, List.all_cons, List.all_nil, Bool.and_true]
    exact hexChar_isLowerHexDigit (seed % 16) (Nat.mod_lt seed (by omega))

theorem freshId_data (tag : String) (seed : Nat) :
    (freshId tag seed).data = tag.data ++ (hexDigitsOf 32 seed).take 8 := by
  rw [freshId, String.data_append, String.data_take]
  rfl

theorem matchesIdPat_freshId (tag : String) (seed : Nat) :
    matchesIdPat tag (freshId tag seed) = true := by
  rw [matchesIdPat, freshId_data]
  rw [List.take_left, List.drop_left]
  have hlen : ((hexDigitsOf 32 seed).take 8).length = 8 := by
    rw [List.length_take, length_hexDigitsOf]
    decide
  have hall : ((hexDigitsOf 32 seed).take 8).all isLowerHexDigit = true := by
    rw [List.all_eq_true]
    intro c hc
    exact List.all_eq_true.mp (all_hexDigitsOf 32 seed) c (List.take_subset 8 _ hc)
  rw [hlen, hall]
  simp

/-! ### Example inputs used by the witnesses -/

/-- A sample user message. -/
def exampleMsg : ChatMessage :=
  { id := "m1", role := Role.user, content := "hi", timestamp := "t1" }

/-- The empty store. -/
def emptyDb : InMemoryDatabase :=
  { chat_sessions := [], documents := [] }

/-- A store holding one session `c` with one user message. -/
def exampleDb : InMemoryDatabase :=
  { chat_sessions := [("c", [exampleMsg])], documents := [] }

/-- Fixed nonces for a single example request. -/
def exampleRnd : RequestNonces :=
  { chatSeed := 0, userSeed := 0, userMsgSeed := 0, assistantMsgSeed := 0, timestamp := "t" }

/-! ### Claims -/

/-- C1: a chat request whose message is empty or whitespace-only is
rejected with the 400 `emptyMessage` validation error and the session
store is returned exactly as it was — no session is created and no
message is appended. -/
theorem empty_message_rejected (db : InMemoryDatabase) (req : ChatRequest)
    (rnd : RequestNonces) (qaInvoke : String → Except String String)
    (h : isBlank req.message = true) :
    chat db req rnd qaInvoke = (Except.error ChatError.emptyMessage, db) ∧
    ChatError.emptyMessage.statusCode = 400 := by
  constructor
  · rw [chat, if_pos h]
  · rfl

/-- Witness for C1: a whitespace-only message on the empty store. -/
theorem empty_message_rejected_witness :
    isBlank " " = true ∧
    (chat emptyDb { chatId := none, message := " ", userId := none } exampleRnd
        (fun _ => Except.ok "a") =
      (Except.error ChatError.emptyMessage, emptyDb) ∧
    ChatError.emptyMessage.statusCode = 400) :=
  ⟨by decide, empty_message_rejected _ _ _ _ (by decide)⟩

/-- C6: `create_chat_session` is idempotent-safe — on an absent id it
creates an empty message list and returns true; on a present id it
returns false and leaves the whole store (hence the session's existing
messages) unchanged; a second call on the same id is a no-op that
returns false. -/
theorem create_chat_session_idempotent (db : InMemoryDatabase) (cid : String) :
    (db.chat_session_exists cid = false →
      (db.create_chat_session cid).2 = true ∧
      (db.create_chat_session cid).1.get_chat_history cid = []) ∧
    (db.chat_session_exists cid = true →
      db.create_chat_session cid = (db, false)) ∧
    ((db.create_chat_session cid).1.create_chat_session cid =
      ((db.create_chat_session cid).1, false)) := by
  refine ⟨?_, ?_, ?_⟩
  · intro h
    exact ⟨create_snd_of_not_exists db cid h, create_history_self db cid h⟩
  · intro h
    exact create_eq_of_exists db cid h
  · exact create_eq_of_exists _ cid (create_exists_self db cid)

/-- Witness for C6: creating the already-present session `c` is a
no-op that returns false, and on the empty store the second of two
creations of `c` is a no-op as well. -/
theorem create_chat_session_idempotent_witness :
    exampleDb.chat_session_exists "c" = true ∧
    exampleDb.create_chat_session "c" = (exampleDb, false) ∧
    ((emptyDb.create_chat_session "c").1.create_chat_session "c" =
      ((emptyDb.create_chat_session "c").1, false)) :=
  ⟨by decide,
   (create_chat_session_idempotent exampleDb "c").2.1 (by decide),
   (create_chat_session_idempotent emptyDb "c").2.2⟩

/-- C7: deleting a missing session returns false and leaves the store
unchanged, and the HTTP layer turns that into a 404 not-found error
rather than an exception; deleting an existing session returns true,
after which the session no longer exists and its history reads back as
the empty sequence. -/
theorem delete_session_behavior (db : InMemoryDatabase) (cid : String) :
    (db.chat_session_exists cid = false →
      db.delete_chat_session cid = (db, false) ∧
      (isBlank cid = false →
        delete_chat db cid = (Except.error (ChatError.notFound cid), db) ∧
        (ChatError.notFound cid).statusCode = 404)) ∧
    (db.chat_session_exists cid = true →
      (db.delete_chat_session cid).2 = true ∧
      (db.delete_chat_session cid).1.chat_session_exists cid = false ∧
      (db.delete_chat_session cid).1.get_chat_history cid = []) := by
  constructor
  · intro h
    refine ⟨delete_eq_of_not_exists db cid h, ?_⟩
    intro hb
    constructor
    · rw [delete_chat]
      simp only [hb, Bool.false_eq_true, if_false, delete_eq_of_not_exists db cid h]
    · rfl
  · intro h
    exact ⟨delete_snd_of_exists db cid h, delete_not_exists_after db cid h,
      delete_history_after db cid h⟩

/-- Witness for C7: deleting the absent session `z` gives a 404 with
the store unchanged; deleting the present session `c` removes it and
empties its history. -/
theorem delete_session_behavior_witness :
    exampleDb.chat_session_exists "z" = false ∧
    delete_chat exampleDb "z" = (Except.error (ChatError.notFound "z"), exampleDb) ∧
    (ChatError.notFound "z").statusCode = 404 ∧
    (exampleDb.delete_chat_session "c").1.chat_session_exists "c" = false ∧
    (exampleDb.delete_chat_session "c").1.get_chat_history "c" = [] := by
  refine ⟨by decide, ?_, ?_, ?_, ?_⟩
  · exact (((delete_session_behavior exampleDb "z").1 (by decide)).2 (by decide)).1
  · exact (((delete_session_behavior exampleDb "z").1 (by decide)).2 (by decide)).2
  · exact ((delete_session_behavior exampleDb "c").2 (by decide)).2.1
  · exact ((delete_session_behavior exampleDb "c").2 (by decide)).2.2

/-- C8: the session listing never includes a session with zero
messages; every included row carries the session's message count, a
preview equal to the first user-role message's content (truncated to
its first 100 characters plus an ellipsis when longer than 100,
unmodified otherwise), and the last message's timestamp; and the whole
listing is sorted by last activity in descending order. -/
theorem session_listing_metadata (db : InMemoryDatabase) (s : SessionInfo)
    (hs : s ∈ db.get_chat_sessions_with_metadata) :
    0 < s.messageCount ∧
    (∃ p ∈ db.chat_sessions, p.2 ≠ [] ∧ s.chatId = p.1 ∧ s.messageCount = p.2.length ∧
      s.firstMessage = ((p.2.find? fun m => m.role == Role.user).map fun m =>
        if m.content.length > 100 then m.content.take 100 ++ "..." else m.content) ∧
      s.lastActivity = (p.2.getLast?.map fun m => m.timestamp).getD "") ∧
    db.get_chat_sessions_with_metadata.Pairwise
      (fun a b => b.lastActivity ≤ a.lastActivity) := by
  rcases (mem_metadata_iff db s).mp hs with ⟨p, hp, hne, hsE⟩
  refine ⟨?_, ⟨p, hp, hne, ?_, ?_, ?_, ?_⟩, ?_⟩
  · rw [hsE]
    exact List.length_pos.mpr hne
  · rw [hsE]
    rfl
  · rw [hsE]
    rfl
  · rw [hsE]
    rfl
  · rw [hsE]
    rfl
  · rw [InMemoryDatabase.get_chat_sessions_with_metadata]
    exact pairwise_sortByLastActivity _

/-- Witness for C8: the one-session example store lists exactly the
row for `c`, with a positive count and a sorted listing. -/
theorem session_listing_metadata_witness :
    sessionEntry "c" [exampleMsg] ∈ exampleDb.get_chat_sessions_with_metadata ∧
    0 < (sessionEntry "c" [exampleMsg]).messageCount ∧
    exampleDb.get_chat_sessions_with_metadata.Pairwise
      (fun a b => b.lastActivity ≤ a.lastActivity) :=
  ⟨by decide, (session_listing_metadata exampleDb (sessionEntry "c" [exampleMsg])
      (by decide)).1,
   (session_listing_metadata exampleDb (sessionEntry "c" [exampleMsg]) (by decide)).2.2⟩

/-- C10: a session that has messages but no user-role message is still
listed — with its message count and last-activity timestamp — and its
preview is `none`; the absence of a user message neither excludes the
session nor raises an error. -/
theorem listing_includes_userless_sessions (db : InMemoryDatabase) (cid : String)
    (msgs : List ChatMessage) (hmem : (cid, msgs) ∈ db.chat_sessions) (hne : msgs ≠ [])
    (hnouser : ∀ m ∈ msgs, m.role ≠ Role.user) :
    ∃ s ∈ db.get_chat_sessions_with_metadata,
      s.chatId = cid ∧ s.messageCount = msgs.length ∧ s.firstMessage = none ∧
      s.lastActivity = (msgs.getLast?.map fun m => m.timestamp).getD "" := by
  refine ⟨sessionEntry cid msgs, ?_, rfl, rfl, ?_, rfl⟩
  · exact (mem_metadata_iff db _).mpr ⟨(cid, msgs), hmem, hne, rfl⟩
  · show firstUserPreview msgs = none
    rw [firstUserPreview]
    have hf : msgs.find? (fun m => m.role == Role.user) = none := by
      rw [List.find?_eq_none]
      intro m hm hrole
      exact hnouser m hm (by simpa using hrole)
    rw [hf]
    rfl

/-- An assistant-only message, for the C10 witness. -/
def exampleAssistantMsg : ChatMessage :=
  { id := "m2", role := Role.assistant, content := "hello", timestamp := "t2" }

/-- A store whose only session holds no user-role message. -/
def exampleDbAssistantOnly : InMemoryDatabase :=
  { chat_sessions := [("a", [exampleAssistantMsg])], documents := [] }

/-- Witness for C10: a session holding a single assistant message is
listed with count 1 and a `none` preview. -/
theorem listing_includes_userless_sessions_witness :
    (∀ m ∈ [exampleAssistantMsg], m.role ≠ Role.user) ∧
    (∃ s ∈ exampleDbAssistantOnly.get_chat_sessions_with_metadata,
      s.chatId = "a" ∧ s.messageCount = [exampleAssistantMsg].length ∧
      s.firstMessage = none ∧
      s.lastActivity = ([exampleAssistantMsg].getLast?.map fun m => m.timestamp).getD "") :=
  ⟨by decide,
   listing_includes_userless_sessions exampleDbAssistantOnly "a" [exampleAssistantMsg]
     (by decide) (by decide) (by decide)⟩

/-- C9: every successful chat response carries, as sources,
attributions (with a null relevantSection) for exactly the first 3
documents of the global registry — all of them when fewer than 3
exist — and null when the registry is empty; the registry lookup
ignores the chat id, so any two chat ids see the same documents. -/
theorem sources_first_three_documents (db : InMemoryDatabase) (req : ChatRequest)
    (rnd : RequestNonces) (qaInvoke : String → Except String String)
    (resp : ChatResponse) (db2 : InMemoryDatabase) (c1 c2 : String)
    (hmsg : isBlank req.message = false)
    (hrun : chat db req rnd qaInvoke = (Except.ok resp, db2)) :
    resp.sources = (if db.documents.isEmpty then none
      else some ((db.documents.take 3).map fun doc =>
        { docId := doc.id, docName := doc.name, relevantSection := none })) ∧
    (db.documents.length ≤ 3 → db.documents.take 3 = db.documents) ∧
    db.get_documents c1 = db.get_documents c2 := by
  rw [chat_eq db req rnd qaInvoke hmsg] at hrun
  have hresp : chatResponse db req rnd qaInvoke = resp :=
    Except.ok.inj (Prod.ext_iff.mp hrun).1
  refine ⟨?_, ?_, rfl⟩
  · rw [← hresp]
    rfl
  · intro h
    exact List.take_of_length_le h

/-- A four-document registry for the witnesses. -/
def exampleDocs : List DocumentInfo :=
  [{ id := "d1", name := "a.pdf", type := "PDF" },
   { id := "d2", name := "b.pdf", type := "PDF" },
   { id := "d3", name := "c.pdf", type := "PDF" },
   { id := "d4", name := "d.pdf", type := "PDF" }]

/-- A store with no sessions and four registered documents. -/
def exampleDbDocs : InMemoryDatabase :=
  { chat_sessions := [], documents := exampleDocs }

/-- The response of the example run on `exampleDbDocs` (chat id
generated from seed 0, user id passed through). -/
def exampleRespDocs : ChatResponse :=
  { response := "a", messageId := "msg-00000000", chatId := "chat-00000000", userId := "u7"
    timestamp := "t"
    sources := some [{ docId := "d1", docName := "a.pdf", relevantSection := none },
                     { docId := "d2", docName := "b.pdf", relevantSection := none },
                     { docId := "d3", docName := "c.pdf", relevantSection := none }] }

/-- The store left by the example run on `exampleDbDocs`. -/
def exampleDbDocsAfter : InMemoryDatabase :=
  { chat_sessions :=
      [("chat-00000000",
        [{ id := "msg-00000000", role := Role.user, content := "q", timestamp := "t" },
         { id := "msg-00000000", role := Role.assistant, content := "a", timestamp := "t" }])]
    documents := exampleDocs }

/-- Witness for C9: on a four-document registry the response cites
exactly the first three, and the registry lookup ignores the chat id. -/
theorem sources_first_three_documents_witness :
    (chat exampleDbDocs { chatId := none, message := "q", userId := some "u7" } exampleRnd
        (fun _ => Except.ok "a") = (Except.ok exampleRespDocs, exampleDbDocsAfter)) ∧
    (exampleRespDocs.sources = (if exampleDbDocs.documents.isEmpty then none
      else some ((exampleDbDocs.documents.take 3).map fun doc =>
        { docId := doc.id, docName := doc.name, relevantSection := none })) ∧
     (exampleDbDocs.documents.length ≤ 3 →
       exampleDbDocs.documents.take 3 = exampleDbDocs.documents) ∧
     exampleDbDocs.get_documents "x" = exampleDbDocs.get_documents "y") :=
  ⟨by decide,
   sources_first_three_documents exampleDbDocs
     { chatId := none, message := "q", userId := some "u7" } exampleRnd
     (fun _ => Except.ok "a") exampleRespDocs exampleDbDocsAfter "x" "y"
     (by decide) (by decide)⟩

/-- C5: when the caller-supplied chat id is absent, blank, or the
placeholder string `"string"`, the response carries a freshly drawn id
`chat-` followed by 8 lowercase hex characters; otherwise the supplied
id is used unchanged. The user id follows the same rule independently
with the `user-` tag. -/
theorem session_id_resolution (db : InMemoryDatabase) (req : ChatRequest)
    (rnd : RequestNonces) (qaInvoke : String → Except String String)
    (resp : ChatResponse) (db2 : InMemoryDatabase)
    (hmsg : isBlank req.message = false)
    (hrun : chat db req rnd qaInvoke = (Except.ok resp, db2)) :
    ((req.chatId = none ∨ ∃ s, req.chatId = some s ∧ (isBlank s = true ∨ s = "string")) →
      resp.chatId = freshId "chat-" rnd.chatSeed ∧
      matchesIdPat "chat-" resp.chatId = true) ∧
    (∀ s, req.chatId = some s → isBlank s = false → s ≠ "string" → resp.chatId = s) ∧
    ((req.userId = none ∨ ∃ s, req.userId = some s ∧ (isBlank s = true ∨ s = "string")) →
      resp.userId = freshId "user-" rnd.userSeed ∧
      matchesIdPat "user-" resp.userId = true) ∧
    (∀ s, req.userId = some s → isBlank s = false → s ≠ "string" → resp.userId = s) := by
  rw [chat_eq db req rnd qaInvoke hmsg] at hrun
  have hresp : chatResponse db req rnd qaInvoke = resp :=
    Except.ok.inj (Prod.ext_iff.mp hrun).1
  have hchat : resp.chatId = resolveId req.chatId "chat-" rnd.chatSeed := by
    rw [← hresp]
    rfl
  have huser : resp.userId = resolveId req.userId "user-" rnd.userSeed := by
    rw [← hresp]
    rfl
  have hgeneric : ∀ supplied : Option String, ∀ tag : String, ∀ seed : Nat,
      ((supplied = none ∨ ∃ s, supplied = some s ∧ (isBlank s = true ∨ s = "string")) →
        resolveId supplied tag seed = freshId tag seed) ∧
      (∀ s, supplied = some s → isBlank s = false → s ≠ "string" →
        resolveId supplied tag seed = s) := by
    intro supplied tag seed
    constructor
    · intro hgen
      rcases hgen with hnone | ⟨s, hsome, hbad⟩
      · rw [hnone]
        rfl
      · rw [hsome]
        simp only [resolveId]
        rw [if_pos hbad]
    · intro s hsome hnb hnstr
      rw [hsome]
      simp only [resolveId]
      rw [if_neg]
      intro hcon
      rcases hcon with hb | hb
      · rw [hnb] at hb
        cases hb
      · exact hnstr hb
  refine ⟨?_, ?_, ?_, ?_⟩
  · intro hgen
    rw [hchat, (hgeneric req.chatId "chat-" rnd.chatSeed).1 hgen]
    exact ⟨rfl, matchesIdPat_freshId "chat-" rnd.chatSeed⟩
  · intro s hsome hnb hnstr
    rw [hchat]
    exact (hgeneric req.chatId "chat-" rnd.chatSeed).2 s hsome hnb hnstr
  · intro hgen
    rw [huser, (hgeneric req.userId "user-" rnd.userSeed).1 hgen]
    exact ⟨rfl, matchesIdPat_freshId "user-" rnd.userSeed⟩
  · intro s hsome hnb hnstr
    rw [huser]
    exact (hgeneric req.userId "user-" rnd.userSeed).2 s hsome hnb hnstr

/-- Witness for C5: the example run left the chat id unset, so the
response carries the freshly drawn `chat-00000000` matching the
pattern, while the supplied user id `u7` passes through unchanged. -/
theorem session_id_resolution_witness :
    exampleRespDocs.chatId = freshId "chat-" 0 ∧
    matchesIdPat "chat-" exampleRespDocs.chatId = true ∧
    exampleRespDocs.userId = "u7" := by
  have h := session_id_resolution exampleDbDocs
    { chatId := none, message := "q", userId := some "u7" } exampleRnd
    (fun _ => Except.ok "a") exampleRespDocs exampleDbDocsAfter
    (by decide) (by decide)
  have h1 := h.1 (Or.inl rfl)
  exact ⟨h1.1, h1.2, h.2.2.2 "u7" rfl (by decide) (by decide)⟩

/-- C4: when the generation collaborator raises on a non-blank
message, the request still completes successfully — no error reaches
the caller; the assistant text is the canned apology chosen by
substring inspection of the error text (the NumPy reply, the CUDA/GPU
reply, or the generic one), and both the user message and the degraded
assistant message are persisted exactly as on the normal path. -/
theorem generation_failure_degrades (db : InMemoryDatabase) (req : ChatRequest)
    (rnd : RequestNonces) (qaInvoke : String → Except String String) (e : String)
    (hmsg : isBlank req.message = false)
    (herr : qaInvoke req.message = Except.error e) :
    ∃ resp db2, chat db req rnd qaInvoke = (Except.ok resp, db2) ∧
      resp.response = classifyModelError e ∧
      (hasSubstr e "Numpy is not available" = true →
        resp.response = numpyUnavailableReply) ∧
      (hasSubstr e "Numpy is not available" = false →
        (hasSubstr e "CUDA" || hasSubstr e "GPU") = true →
        resp.response = gpuIssueReply) ∧
      (hasSubstr e "Numpy is not available" = false →
        (hasSubstr e "CUDA" || hasSubstr e "GPU") = false →
        resp.response = genericApologyReply) ∧
      db2.get_chat_history (resolveId req.chatId "chat-" rnd.chatSeed) =
        db.get_chat_history (resolveId req.chatId "chat-" rnd.chatSeed) ++
          [{ id := freshId "msg-" rnd.userMsgSeed, role := Role.user
             content := req.message, timestamp := rnd.timestamp },
           { id := freshId "msg-" rnd.assistantMsgSeed, role := Role.assistant
             content := classifyModelError e, timestamp := rnd.timestamp }] := by
  have hresp : (chatResponse db req rnd qaInvoke).response = classifyModelError e := by
    show generateResponse qaInvoke req.message = classifyModelError e
    simp only [generateResponse, herr]
  refine ⟨chatResponse db req rnd qaInvoke, chatDbAfter db req rnd qaInvoke,
    chat_eq db req rnd qaInvoke hmsg, hresp, ?_, ?_, ?_, ?_⟩
  · intro hn
    rw [hresp, classifyModelError, if_pos hn]
  · intro hn hg
    rw [hresp, classifyModelError, if_neg (by simp [hn]), if_pos hg]
  · intro hn hg
    rw [hresp, classifyModelError, if_neg (by simp [hn]), if_neg (by simp [hg])]
  · rw [chatDbAfter_history]
    simp only [generateResponse, herr]

/-- Witness for C4: a collaborator that raises `boom GPU` on a fresh
session `s`; the run succeeds with the canned GPU reply persisted. -/
theorem generation_failure_degrades_witness :
    ∃ resp db2,
      chat emptyDb { chatId := some "s", message := "q", userId := some "u" } exampleRnd
          (fun _ => Except.error "boom GPU") = (Except.ok resp, db2) ∧
      resp.response = classifyModelError "boom GPU" ∧
      (hasSubstr "boom GPU" "Numpy is not available" = true →
        resp.response = numpyUnavailableReply) ∧
      (hasSubstr "boom GPU" "Numpy is not available" = false →
        (hasSubstr "boom GPU" "CUDA" || hasSubstr "boom GPU" "GPU") = true →
        resp.response = gpuIssueReply) ∧
      (hasSubstr "boom GPU" "Numpy is not available" = false →
        (hasSubstr "boom GPU" "CUDA" || hasSubstr "boom GPU" "GPU") = false →
        resp.response = genericApologyReply) ∧
      db2.get_chat_history (resolveId (some "s") "chat-" exampleRnd.chatSeed) =
        emptyDb.get_chat_history (resolveId (some "s") "chat-" exampleRnd.chatSeed) ++
          [{ id := freshId "msg-" exampleRnd.userMsgSeed, role := Role.user
             content := "q", timestamp := exampleRnd.timestamp },
           { id := freshId "msg-" exampleRnd.assistantMsgSeed, role := Role.assistant
             content := classifyModelError "boom GPU", timestamp := exampleRnd.timestamp }] :=
  generation_failure_degrades emptyDb
    { chatId := some "s", message := "q", userId := some "u" } exampleRnd
    (fun _ => Except.error "boom GPU") "boom GPU" (by decide) (by decide)

/-- C3: a successful chat request appends exactly two messages to the
resolved session — first the user message with the request content,
then the assistant message with the response text — each carrying a
freshly drawn id and both carrying the same timestamp, and the
response messageId is the assistant message id; hence two successful
posts to the same (initially empty) session leave a history of four
messages with roles user, assistant, user, assistant in append order
and pairwise distinct ids. -/
theorem two_posts_four_messages (db : InMemoryDatabase) (req1 req2 : ChatRequest)
    (rnd1 rnd2 : RequestNonces) (qa1 qa2 : String → Except String String) (cid : String)
    (h1 : isBlank req1.message = false) (h2 : isBlank req2.message = false)
    (hc1 : resolveId req1.chatId "chat-" rnd1.chatSeed = cid)
    (hc2 : resolveId req2.chatId "chat-" rnd2.chatSeed = cid)
    (hids : [freshId "msg-" rnd1.userMsgSeed, freshId "msg-" rnd1.assistantMsgSeed,
             freshId "msg-" rnd2.userMsgSeed, freshId "msg-" rnd2.assistantMsgSeed].Nodup)
    (hempty : db.get_chat_history cid = []) :
    ∃ resp1 db1 resp2 db2,
      chat db req1 rnd1 qa1 = (Except.ok resp1, db1) ∧
      chat db1 req2 rnd2 qa2 = (Except.ok resp2, db2) ∧
      db1.get_chat_history cid =
        [{ id := freshId "msg-" rnd1.userMsgSeed, role := Role.user
           content := req1.message, timestamp := rnd1.timestamp },
         { id := freshId "msg-" rnd1.assistantMsgSeed, role := Role.assistant
           content := generateResponse qa1 req1.message, timestamp := rnd1.timestamp }] ∧
      resp1.messageId = freshId "msg-" rnd1.assistantMsgSeed ∧
      db2.get_chat_history cid =
        [{ id := freshId "msg-" rnd1.userMsgSeed, role := Role.user
           content := req1.message, timestamp := rnd1.timestamp },
         { id := freshId "msg-" rnd1.assistantMsgSeed, role := Role.assistant
           content := generateResponse qa1 req1.message, timestamp := rnd1.timestamp },
         { id := freshId "msg-" rnd2.userMsgSeed, role := Role.user
           content := req2.message, timestamp := rnd2.timestamp },
         { id := freshId "msg-" rnd2.assistantMsgSeed, role := Role.assistant
           content := generateResponse qa2 req2.message, timestamp := rnd2.timestamp }] ∧
      resp2.messageId = freshId "msg-" rnd2.assistantMsgSeed ∧
      (db2.get_chat_history cid).map ChatMessage.role =
        [Role.user, Role.assistant, Role.user, Role.assistant] ∧
      ((db2.get_chat_history cid).map ChatMessage.id).Nodup := by
  have hA := chatDbAfter_history db req1 rnd1 qa1
  rw [hc1, hempty] at hA
  have hB := chatDbAfter_history (chatDbAfter db req1 rnd1 qa1) req2 rnd2 qa2
  rw [hc2, hA] at hB
  have hB4 : (chatDbAfter (chatDbAfter db req1 rnd1 qa1) req2 rnd2 qa2).get_chat_history
      cid =
      [{ id := freshId "msg-" rnd1.userMsgSeed, role := Role.user
         content := req1.message, timestamp := rnd1.timestamp },
       { id := freshId "msg-" rnd1.assistantMsgSeed, role := Role.assistant
         content := generateResponse qa1 req1.message, timestamp := rnd1.timestamp },
       { id := freshId "msg-" rnd2.userMsgSeed, role := Role.user
         content := req2.message, timestamp := rnd2.timestamp },
       { id := freshId "msg-" rnd2.assistantMsgSeed, role := Role.assistant
         content := generateResponse qa2 req2.message, timestamp := rnd2.timestamp }] := by
    rw [hB]
    rfl
  refine ⟨chatResponse db req1 rnd1 qa1, chatDbAfter db req1 rnd1 qa1,
    chatResponse (chatDbAfter db req1 rnd1 qa1) req2 rnd2 qa2,
    chatDbAfter (chatDbAfter db req1 rnd1 qa1) req2 rnd2 qa2,
    chat_eq db req1 rnd1 qa1 h1, chat_eq _ req2 rnd2 qa2 h2, ?_, rfl, hB4, rfl, ?_, ?_⟩
  · rw [hA]
    rfl
  · rw [hB4]
    rfl
  · rw [hB4]
    simpa using hids

/-- Nonces for the first post of the C3 witness (distinct message-id
draws live in the leading hex digits kept by `hex[:8]`). -/
def c3Rnd1 : RequestNonces :=
  { chatSeed := 0, userSeed := 0, userMsgSeed := 0, assistantMsgSeed := 16 ^ 24
    timestamp := "t1" }

/-- Nonces for the second post of the C3 witness. -/
def c3Rnd2 : RequestNonces :=
  { chatSeed := 0, userSeed := 0, userMsgSeed := 2 * 16 ^ 24, assistantMsgSeed := 3 * 16 ^ 24
    timestamp := "t2" }

/-- Witness for C3: two posts to session `s` on the empty store leave
four messages, roles user/assistant/user/assistant, distinct ids. -/
theorem two_posts_four_messages_witness :
    ∃ resp1 db1 resp2 db2,
      chat emptyDb { chatId := some "s", message := "q1", userId := some "u" } c3Rnd1
          (fun _ => Except.ok "a1") = (Except.ok resp1, db1) ∧
      chat db1 { chatId := some "s", message := "q2", userId := some "u" } c3Rnd2
          (fun _ => Except.ok "a2") = (Except.ok resp2, db2) ∧
      db1.get_chat_history "s" =
        [{ id := freshId "msg-" c3Rnd1.userMsgSeed, role := Role.user
           content := "q1", timestamp := c3Rnd1.timestamp },
         { id := freshId "msg-" c3Rnd1.assistantMsgSeed, role := Role.assistant
           content := generateResponse (fun _ => Except.ok "a1") "q1"
           timestamp := c3Rnd1.timestamp }] ∧
      resp1.messageId = freshId "msg-" c3Rnd1.assistantMsgSeed ∧
      db2.get_chat_history "s" =
        [{ id := freshId "msg-" c3Rnd1.userMsgSeed, role := Role.user
           content := "q1", timestamp := c3Rnd1.timestamp },
         { id := freshId "msg-" c3Rnd1.assistantMsgSeed, role := Role.assistant
           content := generateResponse (fun _ => Except.ok "a1") "q1"
           timestamp := c3Rnd1.timestamp },
         { id := freshId "msg-" c3Rnd2.userMsgSeed, role := Role.user
           content := "q2", timestamp := c3Rnd2.timestamp },
         { id := freshId "msg-" c3Rnd2.assistantMsgSeed, role := Role.assistant
           content := generateResponse (fun _ => Except.ok "a2") "q2"
           timestamp := c3Rnd2.timestamp }] ∧
      resp2.messageId = freshId "msg-" c3Rnd2.assistantMsgSeed ∧
      (db2.get_chat_history "s").map ChatMessage.role =
        [Role.user, Role.assistant, Role.user, Role.assistant] ∧
      ((db2.get_chat_history "s").map ChatMessage.id).Nodup :=
  two_posts_four_messages emptyDb
    { chatId := some "s", message := "q1", userId := some "u" }
    { chatId := some "s", message := "q2", userId := some "u" }
    c3Rnd1 c3Rnd2 (fun _ => Except.ok "a1") (fun _ => Except.ok "a2") "s"
    (by decide) (by decide) (by decide) (by decide) (by decide) (by decide)

/-- C2 (amended): the bounded history computed for the generation step
(`conversation_history[-10:]`) consists of exactly the `min 10 N` most
recent messages of the session in their original oldest-first order —
all of them when the session has at most 10, exactly the 10 most
recent when it has more; the generation call itself, however, is
invoked only on the current message, so two collaborators that agree
on the query give identical request outcomes whatever the history. -/
theorem history_window_last_ten (h : List ChatMessage) (db : InMemoryDatabase)
    (req : ChatRequest) (rnd : RequestNonces) (qa1 qa2 : String → Except String String)
    (hqa : qa1 req.message = qa2 req.message) :
    historyForModel h = ((h.reverse.take 10).reverse).map (fun m => (m.role, m.content)) ∧
    (historyForModel h).length = min 10 h.length ∧
    chat db req rnd qa1 = chat db req rnd qa2 := by
  refine ⟨?_, ?_, ?_⟩
  · have hl : (h.reverse.take 10).reverse = h.drop (h.length - 10) := by
      rw [← List.rtake_eq_reverse_take_reverse]
      rfl
    rw [historyForModel, hl]
  · rw [historyForModel, List.length_map, List.length_drop]
    omega
  · simp only [chat, generateResponse, hqa]

/-- A session with 12 assistant messages, for the C2 statements. -/
def c2Msgs : List ChatMessage :=
  (List.range 12).map fun i =>
    { id := toString i, role := Role.assistant, content := toString i, timestamp := "t" }

/-- Witness for C2 (amended), on the 12-message session: the window
keeps the 10 most recent in order, and two collaborators agreeing on
the query give the same outcome. -/
theorem history_window_last_ten_witness :
    historyForModel c2Msgs =
      ((c2Msgs.reverse.take 10).reverse).map (fun m => (m.role, m.content)) ∧
    (historyForModel c2Msgs).length = min 10 c2Msgs.length ∧
    chat emptyDb { chatId := some "s", message := "q", userId := some "u" } exampleRnd
        (fun _ => Except.ok "a") =
      chat emptyDb { chatId := some "s", message := "q", userId := some "u" } exampleRnd
        (fun q => if q = "q" then Except.ok "a" else Except.ok "b") :=
  history_window_last_ten c2Msgs emptyDb
    { chatId := some "s", message := "q", userId := some "u" } exampleRnd
    (fun _ => Except.ok "a") (fun q => if q = "q" then Except.ok "a" else Except.ok "b")
    (by decide)

/-- A store whose session `s` holds the 12 messages of `c2Msgs`. -/
def c2Db : InMemoryDatabase :=
  { chat_sessions := [("s", c2Msgs)], documents := [] }

/-- The same store with session `s` empty. -/
def c2DbNoHistory : InMemoryDatabase :=
  { chat_sessions := [("s", [])], documents := [] }

/-- C2 counterexample: on a session with 12 prior messages the
10-most-recent window is nonempty, yet the generation call receives
only the current query — an echoing collaborator returns exactly the
query, and the response is bit-for-bit the one obtained on a session
with no history at all. So the context passed to the generation call
is not the 10 most recent messages of the session (chats.py line 89
sends only `{"query": request.message}`). -/
theorem generation_receives_only_query_cex :
    (historyForModel (c2Db.get_chat_history "s")).length = 10 ∧
    (Role.user, "q13") ∉ historyForModel (c2Db.get_chat_history "s") ∧
    (chat c2Db { chatId := some "s", message := "q13", userId := some "u" } exampleRnd
        Except.ok).1 =
      Except.ok { response := "q13", messageId := "msg-00000000", chatId := "s"
                  userId := "u", timestamp := "t", sources := none } ∧
    (chat c2Db { chatId := some "s", message := "q13", userId := some "u" } exampleRnd
        Except.ok).1 =
      (chat c2DbNoHistory { chatId := some "s", message := "q13", userId := some "u" }
        exampleRnd Except.ok).1 := by
  refine ⟨by decide, by decide, by decide, by decide⟩
